import Mathlib

/-!
Shallow embedding of the image-stacking pipeline from
`src/image_processor/image_processing.py` (class `ImageProcessor`), together
with theorems settling the specification claims about it.

Pixel buffers are row-major lists of 8-bit samples modelled as `Nat`;
Python floats (the upscale factor) are modelled as `ℚ`; Python dicts with
possibly-missing keys are modelled as structures of `Option` fields read
with `Option.getD` (mirroring `dict.get(key, default)`).  PIL / numpy calls
whose pixel-level output the claims do not inspect (Lanczos resampling,
`ImageEnhance`, `Image.save`) are taken as function parameters, so every
theorem quantifies over them.
-/

/-- A decoded raster image: width, height, channel count, PIL mode string,
and the dense row-major sample buffer (one `Nat` per 8-bit sample). -/
structure RasterImage where
  width : Nat
  height : Nat
  channels : Nat
  mode : String
  data : List Nat
deriving DecidableEq, Repr

/-- The settings dict built by `UIManager.sidebar` and read by
`ImageProcessor` via `settings.get(key, default)`: a missing key is `none`. -/
structure ProcSettings where
  upscale_factor : Option ℚ := none
  output_format : Option String := none
  jpeg_quality : Option Nat := none
deriving DecidableEq, Repr

/-- Python `int()` applied to a (rational-modelled) float: truncation toward
zero. -/
def pyInt (q : ℚ) : Int :=
  if 0 ≤ q then ⌊q⌋ else -⌊-q⌋

/-- Modelled from the spec: the `round` function the spec's Upscaler contract
uses (`width = round(original_width × f)`), read as Python `round`, which
rounds halves to even.  Declared only to compare against the source's
`int()` truncation. -/
def pyRound (q : ℚ) : Int :=
  let f := ⌊q⌋
  let r := q - (f : ℚ)
  if r < 1/2 then f
  else if 1/2 < r then f + 1
  else if f % 2 = 0 then f else f + 1

/-- Python `str.lower()` on the ASCII format names used here. -/
def strLower (s : String) : String :=
  ⟨s.data.map Char.toLower⟩

/-- numpy `.astype(np.uint8)`: C-style cast, truncating toward zero and
wrapping modulo 256. -/
def uint8cast (q : ℚ) : Nat :=
  (pyInt q).toNat % 256

/-- Insert into a sorted list (ascending). -/
def insertSorted (x : Nat) : List Nat → List Nat
  | [] => [x]
  | y :: ys => if x ≤ y then x :: y :: ys else y :: insertSorted x ys

/-- Sort ascending by insertion sort (the sort underlying `np.median`;
numpy's selection algorithm has the same semantics as a full sort). -/
def sortAsc (xs : List Nat) : List Nat :=
  xs.foldr insertSorted []

/-- Embeds `np.median` of a one-dimensional sample list: sort, take the middle
element for odd length, the average of the two middle elements for even
length.  Result is exact (`ℚ`), as numpy computes a float average. -/
def npMedian (xs : List Nat) : ℚ :=
  let s := sortAsc xs
  let n := xs.length
  if n % 2 = 1 then (s.getD (n / 2) 0 : ℚ)
  else ((s.getD (n / 2 - 1) 0 : ℚ) + (s.getD (n / 2) 0 : ℚ)) / 2

/-- The stack of samples at flat index `i`, one per input image
(`np.median(aligned_images, axis=0)` reads this slice). -/
def pixelAt (imgs : List RasterImage) (i : Nat) : List Nat :=
  imgs.map (fun im => im.data.getD i 0)

/-- Lines 30–36 of `image_processing.py`:
`np.median(aligned_images, axis=0).astype(np.uint8)` followed by
`Image.fromarray`, on a same-shaped image list (`_align_images` is the
identity).  Every output sample is the per-index median across the stack,
cast back to uint8. -/
def stackMedian (imgs : List RasterImage) : RasterImage :=
  match imgs with
  | [] => ⟨0, 0, 0, "", []⟩
  | img :: _ =>
    { img with data :=
        (List.range img.data.length).map (fun i => uint8cast (npMedian (pixelAt imgs i))) }

/-- All images share width, height and channel count (the shape of the
numpy arrays `np.array(img)`). -/
def sameShapeB (imgs : List RasterImage) : Bool :=
  match imgs with
  | [] => true
  | img :: rest =>
    rest.all (fun im =>
      im.width == img.width && im.height == img.height && im.channels == img.channels)

/-- The error conditions `process_multiple_images` can raise: the explicit
`ValueError("Need at least 2 images for stacking")` (the spec's
`InsufficientInputError`), and the `ValueError` numpy raises when
`np.median` is given a ragged (inhomogeneously shaped) list of arrays (the
spec's `ShapeMismatchError`). -/
inductive ProcError where
  | insufficientInput
  | shapeMismatch
deriving DecidableEq, Repr

/-- Embeds `ImageProcessor._upscale_image`:
`new_width = int(image.width * factor)`, `new_height = int(image.height * factor)`,
then `image.resize((new_width, new_height), LANCZOS)`.  The resampled pixel
buffer is produced by the `resample` parameter (PIL's Lanczos kernel is not
modelled); the dimensions are computed exactly as the source does. -/
def upscale_image (resample : RasterImage → Nat → Nat → List Nat)
    (image : RasterImage) (factor : ℚ) : RasterImage :=
  let new_width := (pyInt ((image.width : ℚ) * factor)).toNat
  let new_height := (pyInt ((image.height : ℚ) * factor)).toNat
  { width := new_width, height := new_height, channels := image.channels,
    mode := image.mode, data := resample image new_width new_height }

/-- Embeds `ImageProcessor.process_multiple_images`: guard `len(images) < 2`, stack
by median, upscale only when `settings.get('upscale_factor', 1.0) > 1.0`,
then `_enhance_image`.  `enhance` abstracts the PIL sharpness/contrast
pipeline. -/
def process_multiple_images (enhance : RasterImage → RasterImage)
    (resample : RasterImage → Nat → Nat → List Nat)
    (images : List RasterImage) (settings : ProcSettings) :
    Except ProcError RasterImage :=
  if images.length < 2 then .error .insufficientInput
  else if !(sameShapeB images) then .error .shapeMismatch
  else
    let stacked := stackMedian images
    let upscale_factor := settings.upscale_factor.getD 1
    let result := if upscale_factor > 1 then upscale_image resample stacked upscale_factor
                  else stacked
    .ok (enhance result)

/-- Embeds `ImageProcessor.process_single_image`: copy, upscale only when
`settings.get('upscale_factor', 1.0) > 1.0`, then `_enhance_image`.  The
function is total: no factor value raises. -/
def process_single_image (enhance : RasterImage → RasterImage)
    (resample : RasterImage → Nat → Nat → List Nat)
    (image : RasterImage) (settings : ProcSettings) : RasterImage :=
  let result := image
  let upscale_factor := settings.upscale_factor.getD 1
  let result := if upscale_factor > 1 then upscale_image resample result upscale_factor
                else result
  enhance result

/-- The keyword arguments `export_processed_image` hands to `image.save`:
target format, the `quality=` argument when passed, and whether
`optimize=True` was passed. -/
structure SaveArgs where
  format : String
  quality : Option Nat
  optimize : Bool
deriving DecidableEq, Repr

/-- Embeds `ImageProcessor.export_processed_image`: read
`settings.get('output_format', 'PNG')` and `settings.get('jpeg_quality', 95)`,
build the filename `processed_image.<format lowercased>`, and call
`image.save` with `quality`/`optimize` only when the format is `'JPEG'`.
The encoder itself is the `save` parameter; the function returns
(encoded bytes, filename). -/
def export_processed_image (save : RasterImage → SaveArgs → List Nat)
    (image : RasterImage) (settings : ProcSettings) : List Nat × String :=
  let output_format := settings.output_format.getD "PNG"
  let jpeg_quality := settings.jpeg_quality.getD 95
  let filename := "processed_image." ++ strLower output_format
  let bytes :=
    if output_format = "JPEG" then
      save image { format := output_format, quality := some jpeg_quality, optimize := true }
    else
      save image { format := output_format, quality := none, optimize := false }
  (bytes, filename)

/-- The dict returned by `ImageProcessor.get_export_info`. -/
structure ExportInfo where
  dimensions : String
  format : String
  mode : String
  size_estimate : String
deriving DecidableEq, Repr

/-- Modelled from the spec: the size-estimate heuristic the spec's Encoder
contract states, `width × height × 3` bytes reported in kilobytes.
Declared to compare against `get_export_info`. -/
def specSizeEstimateKB (w h : Nat) : Nat :=
  w * h * 3 / 1024

/-- Embeds `ImageProcessor.get_export_info`: dimensions string, chosen format,
mode, and `~{(width * height * 3) // 1024}KB`. -/
def get_export_info (image : RasterImage) (settings : ProcSettings) : ExportInfo :=
  { dimensions := toString image.width ++ " x " ++ toString image.height,
    format := settings.output_format.getD "PNG",
    mode := image.mode,
    size_estimate := "~" ++ toString (image.width * image.height * 3 / 1024) ++ "KB" }

/-! ## Helper lemmas -/

/-- Reading inside the bounds of a replicated list gives the repeated value. -/
theorem getD_replicate_lt (n v i : Nat) (h : i < n) :
    (List.replicate n v).getD i 0 = v := by
  induction n generalizing i with
  | zero => omega
  | succ k ih =>
    cases i with
    | zero => rfl
    | succ j => simpa [List.replicate_succ] using ih j (by omega)

/-- Insertion sort fixes a constant list. -/
theorem insertSorted_replicate (k v : Nat) :
    insertSorted v (List.replicate k v) = List.replicate (k + 1) v := by
  cases k with
  | zero => rfl
  | succ j => simp [List.replicate_succ, insertSorted]

/-- Sorting a constant list returns it unchanged. -/
theorem sortAsc_replicate (n v : Nat) :
    sortAsc (List.replicate n v) = List.replicate n v := by
  induction n with
  | zero => rfl
  | succ k ih =>
    simp only [List.replicate_succ, sortAsc, List.foldr_cons]
    rw [show List.foldr insertSorted [] (List.replicate k v) = sortAsc (List.replicate k v) from rfl,
      ih, insertSorted_replicate]
    rfl

/-- The median of one or more equal samples is that sample. -/
theorem npMedian_replicate (n v : Nat) (h : 1 ≤ n) :
    npMedian (List.replicate n v) = v := by
  unfold npMedian
  rw [sortAsc_replicate, List.length_replicate]
  by_cases hpar : n % 2 = 1
  · rw [if_pos hpar, getD_replicate_lt n v (n / 2) (Nat.div_lt_self (by omega) (by omega))]
  · rw [if_neg hpar,
      getD_replicate_lt n v (n / 2 - 1) (by omega),
      getD_replicate_lt n v (n / 2) (Nat.div_lt_self (by omega) (by omega))]
    ring

/-- Reading every index of a list back in order reproduces the list. -/
theorem map_getD_range (l : List Nat) :
    (List.range l.length).map (fun i => l.getD i 0) = l := by
  induction l with
  | nil => rfl
  | cons a t ih =>
    rw [List.length_cons, List.range_succ_eq_map, List.map_cons, List.map_map]
    have hfun : ∀ i ∈ List.range t.length,
        ((fun i => (a :: t).getD i 0) ∘ Nat.succ) i = t.getD i 0 := by
      intro i _
      simp
    rw [List.map_congr_left hfun, ih]
    rfl

/-- Casting a byte-range value to uint8 is the identity. -/
theorem uint8cast_lt256 (v : Nat) (h : v < 256) :
    uint8cast (v : ℚ) = v := by
  simp [uint8cast, pyInt, Nat.mod_eq_of_lt h]

/-- The even-count median of one sample 0 and one sample 100 is 50 after the
uint8 cast. -/
theorem median_zero_hundred : uint8cast (npMedian [0, 100]) = 50 := by
  norm_num [uint8cast, pyInt, npMedian, sortAsc, insertSorted]
  rfl

/-! ## Claim theorems -/

/-- C1 counterexample: at a 1×1 image and factor 8/5, the code's output
width is `int(1 * 1.6) = 1`, not `round(1 * 1.6) = 2` as the claim states. -/
theorem upscale_width_not_round_at_8_5 :
    ¬ ((upscale_image (fun _ _ _ => []) ⟨1, 1, 3, "RGB", [0, 0, 0]⟩ (8/5)).width
        = (pyRound ((1 : ℚ) * (8/5))).toNat) := by
  norm_num [upscale_image, pyInt, pyRound]
  decide

/-- C1 (amended): for every factor `f ≥ 1`, `_upscale_image` returns
dimensions `int(width * f)` and `int(height * f)` — Python `int()`
truncation, not rounding; in particular for `f = 2.0` the output is exactly
`2W × 2H`, where truncation and rounding agree. -/
theorem upscale_dims_eq_trunc (resample : RasterImage → Nat → Nat → List Nat)
    (img : RasterImage) (f : ℚ) (_hf : 1 ≤ f) :
    ((upscale_image resample img f).width = (pyInt ((img.width : ℚ) * f)).toNat
      ∧ (upscale_image resample img f).height = (pyInt ((img.height : ℚ) * f)).toNat)
    ∧ ((upscale_image resample img 2).width = 2 * img.width
      ∧ (upscale_image resample img 2).height = 2 * img.height) := by
  refine ⟨⟨rfl, rfl⟩, ?_, ?_⟩ <;>
  · show (pyInt (_ * 2)).toNat = 2 * _
    rw [pyInt, if_pos (by positivity),
      show ((_ : ℕ) : ℚ) * 2 = ((2 * _ : ℕ) : ℚ) by push_cast; ring,
      Int.floor_natCast, Int.toNat_natCast]

/-- C1 witness for `upscale_dims_eq_trunc` at a 4×3 image and `f = 2`. -/
theorem upscale_dims_eq_trunc_witness :
    (1 : ℚ) ≤ 2
    ∧ (((upscale_image (fun _ _ _ => []) ⟨4, 3, 3, "RGB", []⟩ 2).width
          = (pyInt ((4 : ℚ) * 2)).toNat
        ∧ (upscale_image (fun _ _ _ => []) ⟨4, 3, 3, "RGB", []⟩ 2).height
          = (pyInt ((3 : ℚ) * 2)).toNat)
      ∧ ((upscale_image (fun _ _ _ => []) ⟨4, 3, 3, "RGB", []⟩ 2).width = 2 * 4
        ∧ (upscale_image (fun _ _ _ => []) ⟨4, 3, 3, "RGB", []⟩ 2).height = 2 * 3)) :=
  ⟨by norm_num, upscale_dims_eq_trunc (fun _ _ _ => []) ⟨4, 3, 3, "RGB", []⟩ 2 (by norm_num)⟩

/-- C2 counterexample: with factor 0.5 the pipeline raises nothing — it
returns an output image (here the unmodified input, with `enhance = id`);
no `InvalidFactorError` exists anywhere in the code. -/
theorem upscale_no_error_at_half :
    process_single_image id (fun _ _ _ => []) ⟨1, 1, 3, "RGB", [0, 0, 0]⟩
      { upscale_factor := some (1/2) } = ⟨1, 1, 3, "RGB", [0, 0, 0]⟩ := by
  norm_num [process_single_image]

/-- C2 (amended): for every factor `f ≤ 1.0` (so in particular `f < 1.0`)
the upscale branch is silently skipped — `process_single_image` returns the
enhancement of the unmodified input, and no error of any kind is raised
(the function is total). -/
theorem process_single_skips_upscale_of_factor_le_one
    (enhance : RasterImage → RasterImage) (resample : RasterImage → Nat → Nat → List Nat)
    (img : RasterImage) (s : ProcSettings)
    (h : s.upscale_factor.getD 1 ≤ 1) :
    process_single_image enhance resample img s = enhance img := by
  simp only [process_single_image]
  rw [if_neg (not_lt.mpr h)]

/-- C2 witness for `process_single_skips_upscale_of_factor_le_one` at
factor 1/2. -/
theorem process_single_skips_upscale_witness :
    (({ upscale_factor := some (1/2) } : ProcSettings).upscale_factor.getD 1 ≤ 1)
    ∧ process_single_image id (fun _ _ _ => []) ⟨2, 2, 3, "RGB", []⟩
        { upscale_factor := some (1/2) } = id ⟨2, 2, 3, "RGB", []⟩ :=
  ⟨by norm_num, process_single_skips_upscale_of_factor_le_one id (fun _ _ _ => [])
    ⟨2, 2, 3, "RGB", []⟩ { upscale_factor := some (1/2) } (by norm_num)⟩

/-- C3: stacking an all-0 image with a same-shaped all-100 image yields an
all-50 image: the even-count median is the average (0+100)/2 = 50, which the
uint8 cast leaves at 50.  Width, height and channels come from the first
input. -/
theorem stack_zero_hundred_gives_fifty (a b : RasterImage) (n : Nat)
    (_hw : a.width = b.width) (_hh : a.height = b.height) (_hc : a.channels = b.channels)
    (ha : a.data = List.replicate n 0) (hb : b.data = List.replicate n 100) :
    (stackMedian [a, b]).data = List.replicate n 50
    ∧ (stackMedian [a, b]).width = a.width
    ∧ (stackMedian [a, b]).height = a.height := by
  refine ⟨?_, rfl, rfl⟩
  show (List.range a.data.length).map (fun i => uint8cast (npMedian (pixelAt [a, b] i)))
      = List.replicate n 50
  have key : ∀ i ∈ List.range a.data.length,
      uint8cast (npMedian (pixelAt [a, b] i)) = 50 := by
    intro i hi
    rw [List.mem_range, ha, List.length_replicate] at hi
    have hpx : pixelAt [a, b] i = [0, 100] := by
      show [a.data.getD i 0, b.data.getD i 0] = [0, 100]
      rw [ha, hb, getD_replicate_lt n 0 i hi, getD_replicate_lt n 100 i hi]
    rw [hpx, median_zero_hundred]
  refine List.eq_replicate_iff.2 ⟨by simp [ha], ?_⟩
  intro x hx
  rw [List.mem_map] at hx
  obtain ⟨i, hi, rfl⟩ := hx
  exact key i hi

/-- C3 witness for `stack_zero_hundred_gives_fifty` on 1×1 3-channel
images. -/
theorem stack_zero_hundred_witness :
    ((⟨1, 1, 3, "RGB", [0, 0, 0]⟩ : RasterImage).width
        = (⟨1, 1, 3, "RGB", [100, 100, 100]⟩ : RasterImage).width
      ∧ (⟨1, 1, 3, "RGB", [0, 0, 0]⟩ : RasterImage).height
        = (⟨1, 1, 3, "RGB", [100, 100, 100]⟩ : RasterImage).height
      ∧ (⟨1, 1, 3, "RGB", [0, 0, 0]⟩ : RasterImage).channels
        = (⟨1, 1, 3, "RGB", [100, 100, 100]⟩ : RasterImage).channels
      ∧ (⟨1, 1, 3, "RGB", [0, 0, 0]⟩ : RasterImage).data = List.replicate 3 0
      ∧ (⟨1, 1, 3, "RGB", [100, 100, 100]⟩ : RasterImage).data = List.replicate 3 100)
    ∧ (stackMedian [⟨1, 1, 3, "RGB", [0, 0, 0]⟩, ⟨1, 1, 3, "RGB", [100, 100, 100]⟩]).data
        = List.replicate 3 50 :=
  ⟨⟨rfl, rfl, rfl, rfl, rfl⟩,
    (stack_zero_hundred_gives_fifty ⟨1, 1, 3, "RGB", [0, 0, 0]⟩
      ⟨1, 1, 3, "RGB", [100, 100, 100]⟩ 3 rfl rfl rfl rfl rfl).1⟩

/-- C4: stacking `n ≥ 2` identical copies of an 8-bit image returns that
image unchanged, field for field: the median of `n` equal samples is that
sample, and the uint8 cast is the identity on byte-range values. -/
theorem stack_replicate_eq_self (n : Nat) (img : RasterImage)
    (hn : 2 ≤ n) (h8 : ∀ x ∈ img.data, x < 256) :
    stackMedian (List.replicate n img) = img := by
  obtain ⟨k, rfl⟩ : ∃ k, n = k + 1 := ⟨n - 1, by omega⟩
  rw [List.replicate_succ]
  obtain ⟨w, h, c, m, d⟩ := img
  have key : ∀ i ∈ List.range d.length,
      uint8cast (npMedian (pixelAt
          (RasterImage.mk w h c m d :: List.replicate k (RasterImage.mk w h c m d)) i))
        = d.getD i 0 := by
    intro i hi
    rw [List.mem_range] at hi
    have hpx : pixelAt
        (RasterImage.mk w h c m d :: List.replicate k (RasterImage.mk w h c m d)) i
        = List.replicate (k + 1) (d.getD i 0) := by
      show d.getD i 0 :: (List.replicate k (RasterImage.mk w h c m d)).map
          (fun im => im.data.getD i 0) = List.replicate (k + 1) (d.getD i 0)
      rw [List.map_replicate, List.replicate_succ]
    rw [hpx, npMedian_replicate (k + 1) _ (by omega)]
    refine uint8cast_lt256 _ (h8 _ ?_)
    rw [List.getD_eq_getElem?_getD, List.getElem?_eq_getElem hi, Option.getD_some]
    exact List.getElem_mem hi
  exact congrArg (RasterImage.mk w h c m)
    (by rw [List.map_congr_left key, map_getD_range])

/-- C4 witness for `stack_replicate_eq_self` on two copies of a 1×1
grayscale image. -/
theorem stack_replicate_witness :
    2 ≤ 2
    ∧ (∀ x ∈ (⟨1, 1, 1, "L", [7]⟩ : RasterImage).data, x < 256)
    ∧ stackMedian (List.replicate 2 (⟨1, 1, 1, "L", [7]⟩ : RasterImage))
        = ⟨1, 1, 1, "L", [7]⟩ :=
  ⟨le_refl 2, by decide,
    stack_replicate_eq_self 2 ⟨1, 1, 1, "L", [7]⟩ (le_refl 2) (by decide)⟩

/-- C5: `process_multiple_images` returns the insufficient-input error
(`ValueError("Need at least 2 images for stacking")`) exactly when fewer
than 2 images are supplied; with 2 or more it either reports a shape
mismatch or produces an image. -/
theorem insufficient_input_iff_lt_two
    (enhance : RasterImage → RasterImage) (resample : RasterImage → Nat → Nat → List Nat)
    (imgs : List RasterImage) (s : ProcSettings) :
    process_multiple_images enhance resample imgs s
        = Except.error ProcError.insufficientInput
      ↔ imgs.length < 2 := by
  simp only [process_multiple_images]
  by_cases hlen : imgs.length < 2
  · simp [hlen]
  · cases hs : sameShapeB imgs <;> simp [hlen, hs]

/-- C6: two images that disagree in width or height cannot be stacked —
`np.median` receives a ragged array list and raises, modelled as the
shape-mismatch error; no output image is produced. -/
theorem shape_mismatch_of_diff_dims
    (enhance : RasterImage → RasterImage) (resample : RasterImage → Nat → Nat → List Nat)
    (a b : RasterImage) (s : ProcSettings)
    (h : a.width ≠ b.width ∨ a.height ≠ b.height) :
    process_multiple_images enhance resample [a, b] s
      = Except.error ProcError.shapeMismatch := by
  have hs : sameShapeB [a, b] = false := by
    simp only [sameShapeB, List.all_cons, List.all_nil, Bool.and_true]
    rcases h with h | h <;> simp [Ne.symm h]
  simp [process_multiple_images, hs]

/-- C6 witness for `shape_mismatch_of_diff_dims` on a 1×1 and a 2×1
image. -/
theorem shape_mismatch_witness :
    ((⟨1, 1, 3, "RGB", [0, 0, 0]⟩ : RasterImage).width
        ≠ (⟨2, 1, 3, "RGB", [0, 0, 0, 0, 0, 0]⟩ : RasterImage).width
      ∨ (⟨1, 1, 3, "RGB", [0, 0, 0]⟩ : RasterImage).height
        ≠ (⟨2, 1, 3, "RGB", [0, 0, 0, 0, 0, 0]⟩ : RasterImage).height)
    ∧ process_multiple_images id (fun _ _ _ => [])
        [⟨1, 1, 3, "RGB", [0, 0, 0]⟩, ⟨2, 1, 3, "RGB", [0, 0, 0, 0, 0, 0]⟩] {}
        = Except.error ProcError.shapeMismatch :=
  ⟨Or.inl (by decide),
    shape_mismatch_of_diff_dims id (fun _ _ _ => []) ⟨1, 1, 3, "RGB", [0, 0, 0]⟩
      ⟨2, 1, 3, "RGB", [0, 0, 0, 0, 0, 0]⟩ {} (Or.inl (by decide))⟩

/-- C7: for any settings choosing a supported output format, the export
filename is deterministically `processed_image.` followed by the lowercase
spelling of that format, regardless of image, encoder behaviour, or other
settings. -/
theorem export_filename_deterministic (save : RasterImage → SaveArgs → List Nat)
    (img : RasterImage) (s : ProcSettings) (fmt : String)
    (hf : s.output_format = some fmt)
    (hsup : fmt = "PNG" ∨ fmt = "JPEG" ∨ fmt = "TIFF") :
    (export_processed_image save img s).2 = "processed_image." ++ strLower fmt
    ∧ ("processed_image." ++ strLower fmt)
        ∈ (["processed_image.png", "processed_image.jpeg", "processed_image.tiff"]
            : List String) := by
  constructor
  · simp only [export_processed_image, hf, Option.getD_some]
  · rcases hsup with rfl | rfl | rfl <;> decide

/-- C7 witness for `export_filename_deterministic` at format `"JPEG"`. -/
theorem export_filename_witness :
    (({ output_format := some "JPEG" } : ProcSettings).output_format = some "JPEG")
    ∧ ("JPEG" = "PNG" ∨ "JPEG" = "JPEG" ∨ "JPEG" = "TIFF")
    ∧ ((export_processed_image (fun _ _ => []) ⟨1, 1, 3, "RGB", []⟩
          { output_format := some "JPEG" }).2 = "processed_image." ++ strLower "JPEG"
      ∧ ("processed_image." ++ strLower "JPEG")
          ∈ (["processed_image.png", "processed_image.jpeg", "processed_image.tiff"]
              : List String)) :=
  ⟨rfl, Or.inr (Or.inl rfl),
    export_filename_deterministic (fun _ _ => []) ⟨1, 1, 3, "RGB", []⟩
      { output_format := some "JPEG" } "JPEG" rfl (Or.inr (Or.inl rfl))⟩

/-- C8: the reported size estimate is the heuristic
`width * height * 3 // 1024` kilobytes — exactly the spec's formula — and it
does not depend on the settings at all (in particular not on any encoded
byte length, which `get_export_info` never sees). -/
theorem export_info_size_estimate (img : RasterImage) (s₁ s₂ : ProcSettings) :
    (get_export_info img s₁).size_estimate
        = "~" ++ toString (specSizeEstimateKB img.width img.height) ++ "KB"
    ∧ (get_export_info img s₁).size_estimate = (get_export_info img s₂).size_estimate :=
  ⟨rfl, rfl⟩

/-- C9: for the non-lossy formats PNG and TIFF the encoded bytes and the
filename are unchanged when only the quality setting changes (quality is
never passed to the encoder); for JPEG the encoder receives exactly
`quality = q` with `optimize = True`. -/
theorem export_quality_noninterference
    (save : RasterImage → SaveArgs → List Nat) (img : RasterImage)
    (u : Option ℚ) (fmt : String) (q₁ q₂ : Option Nat) (q : Nat)
    (hfmt : fmt = "PNG" ∨ fmt = "TIFF") :
    export_processed_image save img ⟨u, some fmt, q₁⟩
        = export_processed_image save img ⟨u, some fmt, q₂⟩
    ∧ export_processed_image save img ⟨u, some "JPEG", some q⟩
        = (save img ⟨"JPEG", some q, true⟩, "processed_image.jpeg") := by
  constructor
  · rcases hfmt with rfl | rfl <;> rfl
  · have hfn : ("processed_image." ++ strLower "JPEG" : String) = "processed_image.jpeg" := by
      decide
    simp only [export_processed_image, Option.getD_some, if_pos, hfn]

/-- C9 witness for `export_quality_noninterference` at PNG with qualities
60 and 100. -/
theorem export_quality_witness :
    (("PNG" : String) = "PNG" ∨ ("PNG" : String) = "TIFF")
    ∧ (export_processed_image (fun _ _ => []) ⟨1, 1, 3, "RGB", []⟩
          ⟨none, some "PNG", some 60⟩
        = export_processed_image (fun _ _ => []) ⟨1, 1, 3, "RGB", []⟩
          ⟨none, some "PNG", some 100⟩
      ∧ export_processed_image (fun _ _ => []) ⟨1, 1, 3, "RGB", []⟩
          ⟨none, some "JPEG", some 95⟩
        = ((fun _ _ => ([] : List Nat)) (⟨1, 1, 3, "RGB", []⟩ : RasterImage)
            (⟨"JPEG", some 95, true⟩ : SaveArgs), "processed_image.jpeg")) :=
  ⟨Or.inl rfl,
    export_quality_noninterference (fun _ _ => []) ⟨1, 1, 3, "RGB", []⟩
      none "PNG" (some 60) (some 100) 95 (Or.inl rfl)⟩

/-- C10: a missing output-format key behaves exactly as `'PNG'`, a missing
quality key behaves exactly as quality 95 for JPEG, and (the export being a
total function) no failure arises from the missing keys; `get_export_info`
likewise reports `PNG` when the key is absent. -/
theorem export_defaults_png_and_quality95
    (save : RasterImage → SaveArgs → List Nat) (img : RasterImage)
    (u : Option ℚ) (q : Option Nat) :
    export_processed_image save img ⟨u, none, q⟩
        = export_processed_image save img ⟨u, some "PNG", q⟩
    ∧ export_processed_image save img ⟨u, some "JPEG", none⟩
        = export_processed_image save img ⟨u, some "JPEG", some 95⟩
    ∧ (get_export_info img ⟨u, none, q⟩).format = "PNG" :=
  ⟨rfl, rfl, rfl⟩
